import Mathlib

/-!
Shallow embedding of the MyParlai scoring/odds engine.

Python floats are modelled as rationals (`ℚ`); Python ints as `ℤ` (counts
that the code never treats as signed are still `ℤ` for fidelity).
Fallible Python code (expressions that can raise `ZeroDivisionError`) is
modelled with `Option`; `none` means the call raises.  `pyInt` models
Python's `int()` truncation toward zero, `pyRound` models Python's
`round()` (round half to even), and `pyRound2` models `round(x, 2)`.

Namespaces mirror the source layout:
* `PCalc`  — `src/parlay.py` (flat calculator module)
* `Models` — `src/models/parlay.py`
* `Analysis` — `src/analysis/factors.py` and the input data models
* `Predictor` — `src/analysis/predictor.py`

Identity/timestamp metadata (uuid ids, `datetime` fields) and unused
free-form dictionaries are not modelled; numeric string formatting inside
display strings is abstracted to the branch-dependent template text.
-/

/-- Model of Python `int()` applied to a float: truncation toward zero. -/
def pyInt (x : ℚ) : ℤ :=
  if 0 ≤ x then ⌊x⌋ else ⌈x⌉

/-- Model of Python `round()` on a float: round half to even. -/
def pyRound (x : ℚ) : ℤ :=
  let f : ℤ := ⌊x⌋
  let r : ℚ := x - f
  if r < 1/2 then f
  else if 1/2 < r then f + 1
  else if f % 2 = 0 then f else f + 1

/-- Model of Python `round(x, 2)`: round to two decimal places, half to even. -/
def pyRound2 (x : ℚ) : ℚ :=
  (pyRound (x * 100) : ℚ) / 100

/-- Model of the Python format spec `.1f`: one decimal digit. -/
def fmtQ1 (x : ℚ) : String :=
  let n := pyRound (x * 10)
  let a := n.natAbs
  (if n < 0 then "-" else "") ++ toString (a / 10) ++ "." ++ toString (a % 10)

/-- Model of the Python format spec `+.1f`: one decimal digit with an
explicit sign. -/
def fmtPlus1 (x : ℚ) : String :=
  if x < 0 then fmtQ1 x else "+" ++ fmtQ1 x

namespace PCalc

/-- Embedding of `BetSelection` from `src/parlay.py` (`point` is optional). -/
structure BetSelection where
  game_id : String
  game_description : String
  selection_name : String
  market_type : String
  odds : ℤ
  point : Option ℚ := none
deriving DecidableEq

/-- Embedding of the `Parlay` dataclass from `src/parlay.py`. -/
structure Parlay where
  selections : List BetSelection := []
  stake : ℚ := 0
deriving DecidableEq

/-- Embedding of `Parlay.add_selection`: rejects a selection whose `game_id`
is already present, otherwise appends it.  The Python method mutates the
parlay and returns a `bool`; the model returns the flag and the new state
(the console warning printed on rejection is a side effect with no data
content). -/
def Parlay.add_selection (p : Parlay) (s : BetSelection) : Bool × Parlay :=
  if p.selections.any (fun e => e.game_id == s.game_id) then
    (false, p)
  else
    (true, { p with selections := p.selections ++ [s] })

/-- Embedding of `Parlay.set_stake`: clamps the stake at zero from below. -/
def Parlay.set_stake (p : Parlay) (stake : ℚ) : Parlay :=
  { p with stake := max 0 stake }

/-- Embedding of `american_to_decimal` from `src/parlay.py`.  For
`american_odds = 0` the Python code evaluates `100 / abs(0)` and raises
`ZeroDivisionError`, modelled as `none`. -/
def american_to_decimal (american_odds : ℤ) : Option ℚ :=
  if 0 < american_odds then some ((american_odds : ℚ) / 100 + 1)
  else if american_odds = 0 then none
  else some (100 / |(american_odds : ℚ)| + 1)

/-- Embedding of `decimal_to_american` from `src/parlay.py`.  The code uses
`int()` (truncation toward zero), and for `decimal_odds == 1.0` the else
branch evaluates `-100 / 0.0` and raises `ZeroDivisionError` (`none`). -/
def decimal_to_american (decimal_odds : ℚ) : Option ℤ :=
  if 2 ≤ decimal_odds then some (pyInt ((decimal_odds - 1) * 100))
  else if decimal_odds = 1 then none
  else some (pyInt (-100 / (decimal_odds - 1)))

/-- Embedding of `calculate_implied_probability` from `src/parlay.py`.
Total: for `american_odds = 0` Python computes `abs(0)/(abs(0)+100) = 0`. -/
def calculate_implied_probability (american_odds : ℤ) : ℚ :=
  if 0 < american_odds then 100 / ((american_odds : ℚ) + 100)
  else |(american_odds : ℚ)| / (|(american_odds : ℚ)| + 100)

/-- Result record of `calculate_parlay_odds` (the returned dict). -/
structure ParlayOddsInfo where
  decimal_odds : ℚ
  american_odds : ℤ
  implied_probability : ℚ
deriving DecidableEq

/-- Embedding of `calculate_parlay_odds` from `src/parlay.py`.  An empty
selection list short-circuits to the all-zero record; otherwise decimal
odds and implied probabilities are multiplied across the legs (raising,
i.e. `none`, if any selection has odds `0`), and the two rational results
are rounded to two decimals as in the source. -/
def calculate_parlay_odds (selections : List BetSelection) : Option ParlayOddsInfo :=
  if selections = [] then some ⟨0, 0, 0⟩
  else do
    let decimals ← selections.mapM (fun s => american_to_decimal s.odds)
    let combined_decimal := decimals.foldl (· * ·) 1
    let combined_probability :=
      (selections.map (fun s => calculate_implied_probability s.odds)).foldl (· * ·) 1
    let combined_american ← decimal_to_american combined_decimal
    pure ⟨pyRound2 combined_decimal, combined_american,
          pyRound2 (combined_probability * 100)⟩

/-- Result record of `calculate_payout` (the returned dict). -/
structure PayoutInfo where
  total_payout : ℚ
  profit : ℚ
deriving DecidableEq

/-- Embedding of `calculate_payout` from `src/parlay.py`: zero for an empty
selection list or non-positive stake, otherwise stake times the (already
rounded) combined decimal odds. -/
def calculate_payout (stake : ℚ) (selections : List BetSelection) : Option PayoutInfo :=
  if selections = [] ∨ stake ≤ 0 then some ⟨0, 0⟩
  else do
    let odds_info ← calculate_parlay_odds selections
    let total_payout := stake * odds_info.decimal_odds
    pure ⟨pyRound2 total_payout, pyRound2 (total_payout - stake)⟩

end PCalc

namespace Models

/-- Embedding of the `BetType` enum from `src/models/parlay.py`. -/
inductive BetType where
  | spread
  | moneyline
  | over
  | under
  | prop
deriving DecidableEq

/-- Embedding of the `PickConfidence` enum from `src/models/parlay.py`. -/
inductive PickConfidence where
  | low
  | medium
  | high
  | very_high
deriving DecidableEq

/-- Embedding of the `ParlayLeg` dataclass from `src/models/parlay.py`. -/
structure ParlayLeg where
  matchup_id : String
  bet_type : BetType
  pick : String
  odds : ℤ := -110
  team_id : Option String := none
  confidence : PickConfidence := PickConfidence.medium
  confidence_score : ℚ := 1/2
  reasoning : String := ""
  key_factors : List String := []
deriving DecidableEq

/-- Embedding of the `ParlayLeg.implied_probability` property (total: for
`odds = 0` the else branch computes `0/100 = 0`). -/
def ParlayLeg.implied_probability (leg : ParlayLeg) : ℚ :=
  if 0 < leg.odds then 100 / ((leg.odds : ℚ) + 100)
  else |(leg.odds : ℚ)| / (|(leg.odds : ℚ)| + 100)

/-- Embedding of the `ParlayLeg.decimal_odds` property.  For `odds = 0` the
else branch divides by `abs(0)` and raises (`none`). -/
def ParlayLeg.decimal_odds (leg : ParlayLeg) : Option ℚ :=
  if 0 < leg.odds then some ((leg.odds : ℚ) / 100 + 1)
  else if leg.odds = 0 then none
  else some (100 / |(leg.odds : ℚ)| + 1)

/-- Embedding of the `Parlay` dataclass from `src/models/parlay.py`.  The
`id`, `name` and `created_at` fields are uuid/clock metadata produced by
I/O and are not modelled. -/
structure Parlay where
  legs : List ParlayLeg
  stake : ℚ := 10
  sport : String := "mixed"
deriving DecidableEq

/-- Embedding of the `Parlay.num_legs` property. -/
def Parlay.num_legs (p : Parlay) : ℕ :=
  p.legs.length

/-- Embedding of the `Parlay.total_odds` property: `1.0` for an empty leg
list, otherwise the product of the legs' decimal odds (raising, i.e.
`none`, if some leg has odds `0`). -/
def Parlay.total_odds (p : Parlay) : Option ℚ :=
  if p.legs = [] then some 1
  else (p.legs.mapM ParlayLeg.decimal_odds).map (fun ds => ds.foldl (· * ·) 1)

/-- Embedding of the `Parlay.potential_payout` property. -/
def Parlay.potential_payout (p : Parlay) : Option ℚ :=
  p.total_odds.map (fun t => p.stake * t)

/-- Embedding of the `Parlay.potential_profit` property. -/
def Parlay.potential_profit (p : Parlay) : Option ℚ :=
  p.potential_payout.map (fun x => x - p.stake)

/-- Embedding of the `Parlay.average_confidence` property. -/
def Parlay.average_confidence (p : Parlay) : ℚ :=
  if p.legs = [] then 0
  else (p.legs.map (fun leg => leg.confidence_score)).sum / p.legs.length

/-- Embedding of the `Parlay.implied_win_probability` property: `0.0` for
an empty leg list, otherwise the product of the legs' confidence scores. -/
def Parlay.implied_win_probability (p : Parlay) : ℚ :=
  if p.legs = [] then 0
  else (p.legs.map (fun leg => leg.confidence_score)).foldl (· * ·) 1

/-- Embedding of `Parlay.get_american_odds`: truncating conversion of the
total decimal odds, with an explicit `0` for decimal odds at or below
`1.0` (the no-legs edge case). -/
def Parlay.get_american_odds (p : Parlay) : Option ℤ :=
  p.total_odds.map (fun decimal =>
    if 2 ≤ decimal then pyInt ((decimal - 1) * 100)
    else if 1 < decimal then pyInt (-100 / (decimal - 1))
    else 0)

end Models

/-- Stable insertion step for `sortDescBy`: `x` is placed after every
element whose key is strictly larger, hence before any element whose key
ties with `x` (which came later in the original list). -/
def insertDesc {α : Type} (key : α → ℚ) (x : α) : List α → List α
  | [] => [x]
  | y :: ys => if key x < key y then y :: insertDesc key x ys else x :: y :: ys

/-- Model of Python `sorted(l, key=key, reverse=True)`: the stable sort of
`l` by descending key.  Stable descending sorting is a unique function of
the input, so this insertion sort is extensionally the sort used by the
source. -/
def sortDescBy {α : Type} (key : α → ℚ) : List α → List α
  | [] => []
  | x :: xs => insertDesc key x (sortDescBy key xs)

namespace Models

/-- Embedding of `TeamStats` from `src/models/team.py` (the free-form
`custom_stats` dict is unused by the engine and not modelled). -/
structure TeamStats where
  wins : ℤ := 0
  losses : ℤ := 0
  ties : ℤ := 0
  points_for : ℤ := 0
  points_against : ℤ := 0
  home_record : String := "0-0"
  away_record : String := "0-0"
  streak : ℤ := 0
  last_10 : String := "0-0"
deriving DecidableEq

/-- Embedding of the `TeamStats.win_percentage` property. -/
def TeamStats.win_percentage (s : TeamStats) : ℚ :=
  let total := s.wins + s.losses + s.ties
  if total = 0 then 0 else (s.wins : ℚ) / (total : ℚ)

/-- Embedding of `Team` from `src/models/team.py` (roster is unused by the
engine and not modelled). -/
structure Team where
  id : String
  name : String
  abbreviation : String
  city : String
  sport : String
  conference : Option String := none
  division : Option String := none
  stats : TeamStats := {}
deriving DecidableEq

/-- Embedding of `Weather` from `src/models/weather.py` (without the
fetch timestamp). -/
structure Weather where
  temperature : ℚ
  feels_like : ℚ
  humidity : ℚ
  wind_speed : ℚ
  wind_direction : String
  precipitation_chance : ℚ
  conditions : String
  visibility : ℚ := 10
  is_dome : Bool := false
deriving DecidableEq

/-- Embedding of the `Weather.affects_gameplay` property. -/
def Weather.affects_gameplay (w : Weather) : Bool :=
  if w.is_dome then false
  else decide (15 < w.wind_speed ∨ w.temperature < 32 ∨ 90 < w.temperature ∨
    50 < w.precipitation_chance)

/-- Embedding of the `InjuryStatus` enum from `src/models/injury.py`. -/
inductive InjuryStatus where
  | out
  | doubtful
  | questionable
  | probable
  | day_to_day
  | ir
deriving DecidableEq

/-- Embedding of `Injury` from `src/models/injury.py` (without the
datetime fields). -/
structure Injury where
  player_id : String
  player_name : String
  team_id : String
  status : InjuryStatus
  injury_type : String
  description : Option String := none
  impact_score : ℚ := 1/2
deriving DecidableEq

/-- Embedding of the `Injury.is_likely_out` property. -/
def Injury.is_likely_out (i : Injury) : Bool :=
  match i.status with
  | InjuryStatus.out => true
  | InjuryStatus.doubtful => true
  | InjuryStatus.ir => true
  | _ => false

/-- Embedding of the `Injury.is_uncertain` property. -/
def Injury.is_uncertain (i : Injury) : Bool :=
  match i.status with
  | InjuryStatus.questionable => true
  | InjuryStatus.day_to_day => true
  | _ => false

/-- Embedding of `InjuryReport` from `src/models/injury.py` (without the
report date). -/
structure InjuryReport where
  team_id : String
  team_name : String
  injuries : List Injury := []
deriving DecidableEq

/-- Embedding of `InjuryReport.get_total_impact`: full impact for likely
outs plus half impact for uncertain players, capped at `1.0`. -/
def InjuryReport.get_total_impact (r : InjuryReport) : ℚ :=
  let total := ((r.injuries.filter Injury.is_likely_out).map Injury.impact_score).sum
  let total' := total + ((r.injuries.filter Injury.is_uncertain).map
    (fun i => i.impact_score * (1/2))).sum
  min total' 1

/-- Embedding of the `Odds` dataclass from `src/models/matchup.py`. -/
structure Odds where
  spread : ℚ := 0
  spread_odds : ℤ := -110
  moneyline_home : ℤ := -110
  moneyline_away : ℤ := -110
  over_under : ℚ := 0
  over_odds : ℤ := -110
  under_odds : ℤ := -110
deriving DecidableEq

/-- Embedding of the `HeadToHead` dataclass from `src/models/matchup.py`
(without the datetime/last-winner metadata). -/
structure HeadToHead where
  home_wins : ℤ := 0
  away_wins : ℤ := 0
  ties : ℤ := 0
deriving DecidableEq

/-- Embedding of the `HeadToHead.total_games` property. -/
def HeadToHead.total_games (h : HeadToHead) : ℤ :=
  h.home_wins + h.away_wins + h.ties

/-- Embedding of `Matchup` from `src/models/matchup.py` (without
`game_time` and the unused `analysis_factors` dict). -/
structure Matchup where
  id : String
  sport : String
  home_team : Team
  away_team : Team
  venue : String
  is_neutral_site : Bool := false
  weather : Option Weather := none
  odds : Odds := {}
  home_injuries : Option InjuryReport := none
  away_injuries : Option InjuryReport := none
  head_to_head : HeadToHead := {}
deriving DecidableEq

end Models

namespace Analysis

open Models

/-- Embedding of the `Factor` dataclass from `src/analysis/factors.py`. -/
structure Factor where
  name : String
  value : ℚ
  weight : ℚ := 1/10
  description : String := ""
deriving DecidableEq

/-- Embedding of the `Factor.weighted_value` property. -/
def Factor.weighted_value (f : Factor) : ℚ :=
  f.value * f.weight

/-- Embedding of the `FactorAnalysis` dataclass from
`src/analysis/factors.py`. -/
structure FactorAnalysis where
  matchup_id : String
  factors : List Factor := []
  home_score : ℚ := 0
  away_score : ℚ := 0
  predicted_winner : Option String := none
  confidence : ℚ := 1/2
deriving DecidableEq

/-- Embedding of `FactorAnalysis.add_factor`: a positive weighted value
adds to the home score, otherwise its absolute value adds to the away
score. -/
def FactorAnalysis.add_factor (a : FactorAnalysis) (f : Factor) : FactorAnalysis :=
  let a' := { a with factors := a.factors ++ [f] }
  if 0 < f.weighted_value then
    { a' with home_score := a'.home_score + f.weighted_value }
  else
    { a' with away_score := a'.away_score + |f.weighted_value| }

/-- Embedding of `FactorAnalysis.calculate_prediction`: confidence `0.5`
for a zero total, otherwise the winning-side proportion rescaled by `0.8`
around `0.5` and clamped to `[0.5, 0.95]`. -/
def FactorAnalysis.calculate_prediction (a : FactorAnalysis) : FactorAnalysis :=
  let total := a.home_score + a.away_score
  if total = 0 then { a with confidence := 1/2 }
  else
    let max_score := max a.home_score a.away_score
    let base := max_score / total
    let c := 1/2 + (base - 1/2) * 0.8
    { a with confidence := min (max c (1/2)) 0.95 }

/-- Embedding of the fixed-key weight dict of `FactorAnalyzer`. -/
structure Weights where
  team_record : ℚ
  head_to_head : ℚ
  injuries : ℚ
  home_advantage : ℚ
  weather : ℚ
  recent_form : ℚ
  rest_days : ℚ
  matchup_specific : ℚ
deriving DecidableEq

/-- Embedding of `FactorAnalyzer.DEFAULT_WEIGHTS`. -/
def DEFAULT_WEIGHTS : Weights :=
  ⟨0.20, 0.10, 0.15, 0.10, 0.10, 0.15, 0.10, 0.10⟩

/-- Embedding of the `FactorAnalyzer` class: its only state is the weight
table chosen at construction. -/
structure FactorAnalyzer where
  weights : Weights := DEFAULT_WEIGHTS
deriving DecidableEq

/-- Embedding of `FactorAnalyzer._analyze_team_records` (numeric string
interpolation in the descriptions is abstracted to the template text). -/
def FactorAnalyzer.analyze_team_records (az : FactorAnalyzer) (m : Matchup) : Factor :=
  let home_pct := m.home_team.stats.win_percentage
  let away_pct := m.away_team.stats.win_percentage
  let diff := home_pct - away_pct
  let desc :=
    if 0.2 < diff then "Home team significantly better record than away"
    else if diff < -0.2 then "Away team significantly better record than home"
    else "Similar records"
  { name := "team_record", value := diff, weight := az.weights.team_record,
    description := desc }

/-- Embedding of `FactorAnalyzer._analyze_head_to_head`: halved win-rate
difference, or a neutral factor when no games were played. -/
def FactorAnalyzer.analyze_head_to_head (az : FactorAnalyzer) (m : Matchup) : Factor :=
  let h2h := m.head_to_head
  let total := h2h.total_games
  if total = 0 then
    { name := "head_to_head", value := 0, weight := az.weights.head_to_head,
      description := "No head-to-head history" }
  else
    let home_win_pct := (h2h.home_wins : ℚ) / (total : ℚ)
    let away_win_pct := (h2h.away_wins : ℚ) / (total : ℚ)
    { name := "head_to_head", value := (home_win_pct - away_win_pct) * 0.5,
      weight := az.weights.head_to_head, description := "H2H record" }

/-- Embedding of `FactorAnalyzer._analyze_injuries`: difference of total
injury impacts (a missing report counts as zero impact). -/
def FactorAnalyzer.analyze_injuries (az : FactorAnalyzer) (m : Matchup) : Factor :=
  let home_impact :=
    match m.home_injuries with
    | none => 0
    | some r => r.get_total_impact
  let away_impact :=
    match m.away_injuries with
    | none => 0
    | some r => r.get_total_impact
  let diff := away_impact - home_impact
  let desc :=
    if 0.3 < |diff| then
      if 0 < diff then "Away team significantly more impacted by injuries"
      else "Home team significantly more impacted by injuries"
    else "Similar injury situations for both teams"
  { name := "injuries", value := diff, weight := az.weights.injuries,
    description := desc }

/-- Embedding of the per-sport base advantage dict lookup (default `0.05`)
inside `FactorAnalyzer._analyze_home_advantage`. -/
def sport_advantage (s : String) : ℚ :=
  if s = "NFL" then 0.08
  else if s = "NBA" then 0.06
  else if s = "MLB" then 0.04
  else if s = "NHL" then 0.05
  else if s = "NCAAF" then 0.10
  else if s = "NCAAB" then 0.08
  else 0.05

/-- Embedding of `FactorAnalyzer._analyze_home_advantage`. -/
def FactorAnalyzer.analyze_home_advantage (az : FactorAnalyzer) (m : Matchup) : Factor :=
  if m.is_neutral_site then
    { name := "home_advantage", value := 0, weight := az.weights.home_advantage,
      description := "Neutral site - no home advantage" }
  else
    { name := "home_advantage", value := sport_advantage m.sport.toUpper,
      weight := az.weights.home_advantage, description := "Home field advantage" }

/-- Embedding of `FactorAnalyzer._analyze_weather`: always value `0`
(informational only), dome games explicitly so. -/
def FactorAnalyzer.analyze_weather (az : FactorAnalyzer) (m : Matchup) : Factor :=
  match m.weather with
  | none =>
    { name := "weather", value := 0, weight := az.weights.weather,
      description := "Indoor game - no weather impact" }
  | some w =>
    if w.is_dome then
      { name := "weather", value := 0, weight := az.weights.weather,
        description := "Indoor game - no weather impact" }
    else
      { name := "weather", value := 0, weight := az.weights.weather,
        description := "Weather impact" }

/-- Embedding of `FactorAnalyzer._analyze_recent_form`: streaks clamped to
`[-5, 5]` and normalized, halved difference. -/
def FactorAnalyzer.analyze_recent_form (az : FactorAnalyzer) (m : Matchup) : Factor :=
  let home_streak := m.home_team.stats.streak
  let away_streak := m.away_team.stats.streak
  let home_form := min (max ((home_streak : ℚ) / 5) (-1)) 1
  let away_form := min (max ((away_streak : ℚ) / 5) (-1)) 1
  let diff := home_form - away_form
  let home_desc := if 0 < home_streak then "Home on a win streak" else "Home on a loss streak"
  let away_desc := if 0 < away_streak then "Away on a win streak" else "Away on a loss streak"
  { name := "recent_form", value := diff * 0.5, weight := az.weights.recent_form,
    description := home_desc ++ ", " ++ away_desc }

/-- Embedding of `FactorAnalyzer.analyze`: folds the fixed, ordered list of
factor evaluators into a fresh analysis (the weather factor only when
weather data is present), computes the prediction, and sets the predicted
winner (ties go to away). -/
def FactorAnalyzer.analyze (az : FactorAnalyzer) (m : Matchup) : FactorAnalysis :=
  let a0 : FactorAnalysis := { matchup_id := m.id }
  let a1 := a0.add_factor (az.analyze_team_records m)
  let a2 := a1.add_factor (az.analyze_head_to_head m)
  let a3 := a2.add_factor (az.analyze_injuries m)
  let a4 := a3.add_factor (az.analyze_home_advantage m)
  let a5 :=
    match m.weather with
    | some _ => a4.add_factor (az.analyze_weather m)
    | none => a4
  let a6 := a5.add_factor (az.analyze_recent_form m)
  let a7 := a6.calculate_prediction
  let winner := if a7.away_score < a7.home_score then m.home_team.id else m.away_team.id
  { a7 with predicted_winner := some winner }

/-- Embedding of `FactorAnalyzer.get_key_factors`: the stable descending
sort by absolute weighted value, truncated to `top_n` (the Python default
is `top_n = 3`). -/
def FactorAnalyzer.get_key_factors (az : FactorAnalyzer) (analysis : FactorAnalysis)
    (top_n : ℕ) : List Factor :=
  (sortDescBy (fun f => |f.weighted_value|) analysis.factors).take top_n

end Analysis

namespace Predictor

open Models Analysis

/-- Embedding of the `ParlayPredictor` class: its only state is the factor
analyzer chosen at construction. -/
structure ParlayPredictor where
  factor_analyzer : FactorAnalyzer := {}
deriving DecidableEq

/-- Embedding of `ParlayPredictor._get_confidence_level`: the
`CONFIDENCE_THRESHOLDS` dict walked in insertion order (0.70, 0.60, 0.50,
0.0), first match wins, `low` as fallback. -/
def get_confidence_level (score : ℚ) : PickConfidence :=
  if 0.70 ≤ score then PickConfidence.very_high
  else if 0.60 ≤ score then PickConfidence.high
  else if 0.50 ≤ score then PickConfidence.medium
  else PickConfidence.low

/-- Embedding of `ParlayPredictor._generate_reasoning`. -/
def generate_reasoning (az : FactorAnalyzer) (analysis : FactorAnalysis)
    (bet_type : String) (take_home : Bool) : String :=
  let key_factors := az.get_key_factors analysis 3
  let team_type := if take_home then "home team" else "away team"
  let reasons := (key_factors.map Factor.description).filter (fun d => d != "")
  let reason_text := if reasons = [] then "Balanced analysis"
    else String.intercalate "; " reasons
  "Taking " ++ team_type ++ " on " ++ bet_type ++ ": " ++ reason_text

/-- Embedding of `ParlayPredictor.predict_spread`: side is home iff the
score difference is positive; the analysis confidence is dampened by 10%
when the chosen side is already a large favorite per the market spread. -/
def ParlayPredictor.predict_spread (p : ParlayPredictor) (m : Matchup)
    (analysis : FactorAnalysis) : ParlayLeg :=
  let spread := m.odds.spread
  let score_diff := analysis.home_score - analysis.away_score
  let base_confidence :=
    if 0 < score_diff ∧ spread < -7 then analysis.confidence * 0.9
    else if ¬0 < score_diff ∧ 7 < spread then analysis.confidence * 0.9
    else analysis.confidence
  let pick :=
    if 0 < score_diff then m.home_team.abbreviation ++ " " ++ fmtPlus1 spread
    else m.away_team.abbreviation ++ " " ++ fmtPlus1 (-spread)
  let team_id := if 0 < score_diff then m.home_team.id else m.away_team.id
  let key_factors := p.factor_analyzer.get_key_factors analysis 3
  { matchup_id := m.id, bet_type := BetType.spread, pick := pick,
    odds := m.odds.spread_odds, team_id := some team_id,
    confidence := get_confidence_level base_confidence,
    confidence_score := base_confidence,
    reasoning := generate_reasoning p.factor_analyzer analysis "spread"
      (decide (0 < score_diff)),
    key_factors := key_factors.map Factor.description }

/-- Embedding of `ParlayPredictor.predict_moneyline`: side is home iff the
home score exceeds the away score; confidence is the analysis confidence
unmodified. -/
def ParlayPredictor.predict_moneyline (p : ParlayPredictor) (m : Matchup)
    (analysis : FactorAnalysis) : ParlayLeg :=
  let take_home := analysis.away_score < analysis.home_score
  let base_confidence := analysis.confidence
  let pick :=
    if take_home then m.home_team.abbreviation ++ " ML"
    else m.away_team.abbreviation ++ " ML"
  let team_id := if take_home then m.home_team.id else m.away_team.id
  let odds := if take_home then m.odds.moneyline_home else m.odds.moneyline_away
  { matchup_id := m.id, bet_type := BetType.moneyline, pick := pick,
    odds := odds, team_id := some team_id,
    confidence := get_confidence_level base_confidence,
    confidence_score := base_confidence,
    reasoning := generate_reasoning p.factor_analyzer analysis "moneyline"
      (decide take_home),
    key_factors := (p.factor_analyzer.get_key_factors analysis 3).map Factor.description }

/-- Embedding of `ParlayPredictor._analyze_total`: indicator count of
high-scoring offenses (points for above `25 * 17`) and porous defenses
(points against above `23 * 17`), minus one for gameplay-affecting
non-dome weather; over iff the count reaches 2.  The `analysis` parameter
is unused, as in the source. -/
def analyze_total (m : Matchup) (analysis : FactorAnalysis) : Bool :=
  let _ := analysis
  let over_indicators : ℤ :=
    (if 25 * 17 < m.home_team.stats.points_for then 1 else 0) +
    (if 25 * 17 < m.away_team.stats.points_for then 1 else 0) +
    (if 23 * 17 < m.home_team.stats.points_against then 1 else 0) +
    (if 23 * 17 < m.away_team.stats.points_against then 1 else 0) -
    (match m.weather with
     | some w => if ¬w.is_dome ∧ w.affects_gameplay then 1 else 0
     | none => 0)
  decide (2 ≤ over_indicators)

/-- Embedding of `ParlayPredictor._generate_total_reasoning`. -/
def generate_total_reasoning (take_over : Bool) : String :=
  let direction := if take_over then "over" else "under"
  "Expecting game to go " ++ direction ++ " based on team scoring trends"

/-- Embedding of `ParlayPredictor._get_total_factors`. -/
def get_total_factors (m : Matchup) : List String :=
  let home_gp := max (m.home_team.stats.wins + m.home_team.stats.losses) 1
  let home_ppg := (m.home_team.stats.points_for : ℚ) / (home_gp : ℚ)
  let away_gp := max (m.away_team.stats.wins + m.away_team.stats.losses) 1
  let away_ppg := (m.away_team.stats.points_for : ℚ) / (away_gp : ℚ)
  let base := ["Home team averaging " ++ fmtQ1 home_ppg ++ " points per game",
    "Away team averaging " ++ fmtQ1 away_ppg ++ " points per game"]
  match m.weather with
  | some w =>
    if ¬w.is_dome ∧ w.affects_gameplay then
      base ++ ["Weather may impact scoring: " ++ w.conditions]
    else base
  | none => base

/-- Embedding of `ParlayPredictor.predict_total`: direction from the
indicator count, confidence scaled by 0.85. -/
def ParlayPredictor.predict_total (p : ParlayPredictor) (m : Matchup)
    (analysis : FactorAnalysis) : ParlayLeg :=
  let _ := p
  let total := m.odds.over_under
  let take_over := analyze_total m analysis
  let base_confidence := analysis.confidence * 0.85
  let pick := if take_over then "OVER " ++ fmtQ1 total else "UNDER " ++ fmtQ1 total
  let bet_type := if take_over then BetType.over else BetType.under
  let odds := if take_over then m.odds.over_odds else m.odds.under_odds
  { matchup_id := m.id, bet_type := bet_type, pick := pick, odds := odds,
    confidence := get_confidence_level base_confidence,
    confidence_score := base_confidence,
    reasoning := generate_total_reasoning take_over,
    key_factors := get_total_factors m }

/-- Model of Python `max(l, key=key)` restricted to the guarded use in
`_choose_best_bet`: the first element attaining the maximal key, `none`
for the empty list. -/
def maxByFirst {α : Type} (key : α → ℚ) : List α → Option α
  | [] => none
  | x :: xs => some (xs.foldl (fun best c => if key best < key c then c else best) x)

/-- Embedding of `ParlayPredictor._choose_best_bet`: candidates generated
in the fixed order spread, moneyline, total (the total leg only when its
realized direction is allowed), keeping the first candidate with the
highest confidence score; `none` when no candidate is allowed. -/
def ParlayPredictor.choose_best_bet (p : ParlayPredictor) (m : Matchup)
    (analysis : FactorAnalysis) (allowed_types : List BetType) : Option ParlayLeg :=
  let candidates :=
    (if BetType.spread ∈ allowed_types then [p.predict_spread m analysis] else []) ++
    (if BetType.moneyline ∈ allowed_types then [p.predict_moneyline m analysis] else []) ++
    (if BetType.over ∈ allowed_types ∨ BetType.under ∈ allowed_types then
      (let total_leg := p.predict_total m analysis
       if total_leg.bet_type ∈ allowed_types then [total_leg] else [])
     else [])
  maxByFirst ParlayLeg.confidence_score candidates

/-- Embedding of `ParlayPredictor.generate_parlay`: analyze every matchup,
keep those whose confidence clears `min_confidence`, stable-sort by
confidence descending, take the top `num_legs` (the non-negative Python
slice `analyses[:num_legs]` is `List.take`), pick the best allowed leg per
matchup, and label the sport `"mixed"` unless all selected matchups share
one.  A `none` for `bet_types` is the Python `None` default (spread and
moneyline).  The uuid id and datetime name of the returned parlay are
I/O metadata, not modelled. -/
def ParlayPredictor.generate_parlay (p : ParlayPredictor) (matchups : List Matchup)
    (num_legs : ℕ) (bet_types : Option (List BetType)) (min_confidence : ℚ)
    (stake : ℚ) : Parlay :=
  let bt := bet_types.getD [BetType.spread, BetType.moneyline]
  let analyses := matchups.filterMap (fun m =>
    let analysis := p.factor_analyzer.analyze m
    if min_confidence ≤ analysis.confidence then some (m, analysis) else none)
  let sorted := sortDescBy (fun pr => pr.2.confidence) analyses
  let selected := sorted.take num_legs
  let legs := selected.filterMap (fun pr => p.choose_best_bet pr.1 pr.2 bt)
  let sports := (selected.map (fun pr => pr.1.sport)).dedup
  let sport :=
    match sports with
    | [s] => s
    | _ => "mixed"
  { legs := legs, stake := stake, sport := sport }

/-- Embedding of `ParlayPredictor.generate_safe_parlay`: 2 legs, spread
and moneyline, minimum confidence 0.60. -/
def ParlayPredictor.generate_safe_parlay (p : ParlayPredictor)
    (matchups : List Matchup) (stake : ℚ) : Parlay :=
  p.generate_parlay matchups 2 (some [BetType.spread, BetType.moneyline]) 0.60 stake

/-- Embedding of `ParlayPredictor.generate_aggressive_parlay`: 5 legs,
spread/moneyline/over/under, minimum confidence 0.45. -/
def ParlayPredictor.generate_aggressive_parlay (p : ParlayPredictor)
    (matchups : List Matchup) (stake : ℚ) : Parlay :=
  p.generate_parlay matchups 5
    (some [BetType.spread, BetType.moneyline, BetType.over, BetType.under]) 0.45 stake

end Predictor

/-! ### Helper lemmas about the Python primitives and the stable sort -/

lemma pyInt_intCast (n : ℤ) : pyInt (n : ℚ) = n := by
  unfold pyInt
  split
  · exact Int.floor_intCast n
  · exact Int.ceil_intCast n

lemma pyInt_of_nonneg {x : ℚ} (h : 0 ≤ x) : pyInt x = ⌊x⌋ :=
  if_pos h

lemma pyInt_of_neg {x : ℚ} (h : x < 0) : pyInt x = ⌈x⌉ :=
  if_neg (not_le.mpr h)

lemma mem_insertDesc {α : Type} (key : α → ℚ) (x : α) (l : List α) (z : α) :
    z ∈ insertDesc key x l ↔ z = x ∨ z ∈ l := by
  induction l with
  | nil => simp [insertDesc]
  | cons y ys ih =>
    unfold insertDesc
    split
    · simp only [List.mem_cons, ih]
      tauto
    · simp only [List.mem_cons]

lemma mem_sortDescBy {α : Type} (key : α → ℚ) (l : List α) (z : α) :
    z ∈ sortDescBy key l ↔ z ∈ l := by
  induction l with
  | nil => simp [sortDescBy]
  | cons x xs ih =>
    simp only [sortDescBy, mem_insertDesc, ih, List.mem_cons]

lemma pairwise_insertDesc {α : Type} (key : α → ℚ) (x : α) (l : List α)
    (h : l.Pairwise (fun a b => key b ≤ key a)) :
    (insertDesc key x l).Pairwise (fun a b => key b ≤ key a) := by
  induction l with
  | nil => simp [insertDesc]
  | cons y ys ih =>
    rw [List.pairwise_cons] at h
    obtain ⟨hy, hys⟩ := h
    unfold insertDesc
    split
    · rename_i hlt
      rw [List.pairwise_cons]
      refine ⟨?_, ih hys⟩
      intro z hz
      rcases (mem_insertDesc key x ys z).mp hz with rfl | hz
      · exact le_of_lt hlt
      · exact hy z hz
    · rename_i hnlt
      rw [List.pairwise_cons]
      refine ⟨?_, List.pairwise_cons.mpr ⟨hy, hys⟩⟩
      intro z hz
      rcases List.mem_cons.mp hz with rfl | hz
      · exact not_lt.mp hnlt
      · exact le_trans (hy z hz) (not_lt.mp hnlt)

lemma pairwise_sortDescBy {α : Type} (key : α → ℚ) (l : List α) :
    (sortDescBy key l).Pairwise (fun a b => key b ≤ key a) := by
  induction l with
  | nil => simp [sortDescBy]
  | cons x xs ih => exact pairwise_insertDesc key x _ ih

lemma filter_insertDesc {α : Type} (key : α → ℚ) (k : ℚ) (x : α) (l : List α) :
    List.filter (fun a => decide (key a = k)) (insertDesc key x l) =
      if key x = k then x :: List.filter (fun a => decide (key a = k)) l
      else List.filter (fun a => decide (key a = k)) l := by
  induction l with
  | nil =>
    by_cases hx : key x = k <;> simp [insertDesc, List.filter_cons, hx]
  | cons y ys ih =>
    unfold insertDesc
    split
    · rename_i hlt
      by_cases hy : key y = k
      · have hx : ¬key x = k := fun hh => absurd (hy ▸ hh : key x = key y) (ne_of_lt hlt)
        simp [List.filter_cons, hy, hx, ih]
      · by_cases hx : key x = k <;> simp [List.filter_cons, hy, hx, ih]
    · by_cases hx : key x = k <;> by_cases hy : key y = k <;>
        simp [List.filter_cons, hx, hy]

lemma filter_sortDescBy {α : Type} (key : α → ℚ) (k : ℚ) (l : List α) :
    List.filter (fun a => decide (key a = k)) (sortDescBy key l) =
      List.filter (fun a => decide (key a = k)) l := by
  induction l with
  | nil => rfl
  | cons x xs ih =>
    by_cases hx : key x = k <;>
      simp [sortDescBy, filter_insertDesc, ih, List.filter_cons, hx]

lemma filter_take_suffix {α : Type} (p : α → Bool) (n : ℕ) (l : List α) :
    ∃ t, l.filter p = (l.take n).filter p ++ t := by
  refine ⟨(l.drop n).filter p, ?_⟩
  conv_lhs => rw [← List.take_append_drop n l]
  rw [List.filter_append]

lemma add_selection_pairwise (p : PCalc.Parlay) (s : PCalc.BetSelection)
    (h : p.selections.Pairwise (fun a b => a.game_id ≠ b.game_id)) :
    (p.add_selection s).2.selections.Pairwise (fun a b => a.game_id ≠ b.game_id) := by
  unfold PCalc.Parlay.add_selection
  split
  · exact h
  · rename_i hany
    rw [List.pairwise_append]
    refine ⟨h, List.pairwise_singleton _ _, ?_⟩
    intro a ha b hb
    rw [List.mem_singleton] at hb
    subst hb
    intro heq
    apply hany
    rw [List.any_eq_true]
    exact ⟨a, ha, by rw [beq_iff_eq]; exact heq⟩

lemma foldl_add_selection_pairwise (l : List PCalc.BetSelection) :
    ∀ q : PCalc.Parlay, q.selections.Pairwise (fun a b => a.game_id ≠ b.game_id) →
      ((l.foldl (fun q t => (q.add_selection t).2) q).selections.Pairwise
        (fun a b => a.game_id ≠ b.game_id)) := by
  induction l with
  | nil => exact fun q h => h
  | cons x xs ih => exact fun q h => ih _ (add_selection_pairwise q x h)

/-! ### Claim theorems -/

/-- C10: `set_stake` clamps rather than rejects: after `set_stake s` the
stake equals `max 0 s`, hence is never negative, and the selections are
untouched. -/
theorem set_stake_clamps (p : PCalc.Parlay) (s : ℚ) :
    (p.set_stake s).stake = max 0 s ∧ 0 ≤ (p.set_stake s).stake ∧
    (p.set_stake s).selections = p.selections := by
  refine ⟨rfl, ?_, rfl⟩
  exact le_max_left 0 s

/-- C10 witness: `set_stake (-5)` on the empty parlay yields stake `0`. -/
theorem set_stake_clamps_witness :
    (PCalc.Parlay.set_stake ⟨[], 0⟩ (-5)).stake = max 0 (-5) ∧
    0 ≤ (PCalc.Parlay.set_stake ⟨[], 0⟩ (-5)).stake ∧
    (PCalc.Parlay.set_stake ⟨[], 0⟩ (-5)).selections = [] :=
  set_stake_clamps ⟨[], 0⟩ (-5)

/-- C5: `calculate_parlay_odds` on an empty list yields the all-zero
record, and `calculate_payout` yields zero payout and profit for an empty
selection list or a zero stake; none of these raise. -/
theorem parlay_odds_payout_empty_defaults (stake : ℚ)
    (selections : List PCalc.BetSelection) :
    PCalc.calculate_parlay_odds [] = some ⟨0, 0, 0⟩ ∧
    (selections = [] ∨ stake = 0 →
      PCalc.calculate_payout stake selections = some ⟨0, 0⟩) := by
  refine ⟨rfl, fun h => ?_⟩
  unfold PCalc.calculate_payout
  rw [if_pos]
  rcases h with h | h
  · exact Or.inl h
  · exact Or.inr (le_of_eq h)

/-- C5 witness: the payout of stake 100 on no selections is zero. -/
theorem parlay_odds_payout_empty_defaults_witness :
    PCalc.calculate_payout 100 [] = some ⟨0, 0⟩ :=
  (parlay_odds_payout_empty_defaults 100 []).2 (Or.inl rfl)

/-- C9: `add_selection` rejects (returning `false` and leaving the state
unchanged) exactly when some existing selection shares the incoming
`game_id`, appends and returns `true` otherwise, preserves pairwise
distinctness of `game_id`s, and hence every parlay folded up from the
empty one has pairwise-distinct `game_id`s. -/
theorem add_selection_unique_game_ids (p : PCalc.Parlay) (s : PCalc.BetSelection) :
    ((∃ e ∈ p.selections, e.game_id = s.game_id) →
      p.add_selection s = (false, p)) ∧
    ((∀ e ∈ p.selections, e.game_id ≠ s.game_id) →
      p.add_selection s = (true, { p with selections := p.selections ++ [s] })) ∧
    (p.selections.Pairwise (fun a b => a.game_id ≠ b.game_id) →
      (p.add_selection s).2.selections.Pairwise (fun a b => a.game_id ≠ b.game_id)) ∧
    ∀ l : List PCalc.BetSelection,
      ((l.foldl (fun q t => (q.add_selection t).2) (⟨[], 0⟩ : PCalc.Parlay)).selections.Pairwise
        (fun a b => a.game_id ≠ b.game_id)) := by
  refine ⟨?_, ?_, add_selection_pairwise p s, ?_⟩
  · intro h
    unfold PCalc.Parlay.add_selection
    rw [if_pos]
    rw [List.any_eq_true]
    obtain ⟨e, he, heq⟩ := h
    exact ⟨e, he, by rw [beq_iff_eq]; exact heq⟩
  · intro h
    unfold PCalc.Parlay.add_selection
    rw [if_neg]
    rw [List.any_eq_true]
    rintro ⟨e, he, heq⟩
    exact h e he (by rwa [beq_iff_eq] at heq)
  · intro l
    exact foldl_add_selection_pairwise l _ (List.Pairwise.nil)

/-- C1 counterexample: `decimal_to_american 1` raises (`none`) instead of
returning `0`, and at decimal odds `2.507` the code truncates to `150`
where the claimed rounding gives `151`. -/
theorem decimal_to_american_claim_false :
    PCalc.decimal_to_american 1 = none ∧
    PCalc.decimal_to_american (2507/1000) = some 150 ∧
    pyRound ((2507/1000 - 1) * 100) = 151 := by
  refine ⟨by norm_num [PCalc.decimal_to_american], ?_, ?_⟩
  · norm_num [PCalc.decimal_to_american, pyInt, Int.floor_eq_iff]
  · norm_num [pyRound, Int.floor_eq_iff]

/-- C1 amended: `decimal_to_american` truncates toward zero instead of
rounding — floor of `(decimal-1)*100` for `decimal ≥ 2`, ceiling of
`-100/(decimal-1)` for `1 < decimal < 2` (a negative value), floor of the
same (positive) expression for `decimal < 1` — and at `decimal == 1.0` it
raises `ZeroDivisionError` (`none`) rather than returning `0`. -/
theorem decimal_to_american_trunc (d : ℚ) :
    (2 ≤ d → PCalc.decimal_to_american d = some ⌊(d - 1) * 100⌋) ∧
    (1 < d → d < 2 → PCalc.decimal_to_american d = some ⌈-100 / (d - 1)⌉) ∧
    (d < 1 → PCalc.decimal_to_american d = some ⌊-100 / (d - 1)⌋) ∧
    PCalc.decimal_to_american 1 = none := by
  refine ⟨?_, ?_, ?_, by norm_num [PCalc.decimal_to_american]⟩
  · intro h2
    unfold PCalc.decimal_to_american
    rw [if_pos h2]
    congr 1
    apply pyInt_of_nonneg
    nlinarith
  · intro h1 h2
    unfold PCalc.decimal_to_american
    rw [if_neg (not_le.mpr h2), if_neg (ne_of_lt h1).symm]
    congr 1
    apply pyInt_of_neg
    apply div_neg_of_neg_of_pos (by norm_num)
    linarith
  · intro h1
    unfold PCalc.decimal_to_american
    rw [if_neg (by linarith : ¬(2 : ℚ) ≤ d), if_neg (ne_of_lt h1)]
    congr 1
    apply pyInt_of_nonneg
    have hd : d - 1 < 0 := by linarith
    have hpos : (0 : ℚ) < -100 / (d - 1) := div_pos_of_neg_of_neg (by norm_num) hd
    linarith

/-- C1 witness: the amended statement at decimal odds `1.5` yields `-200`,
matching the repository's own unit test. -/
theorem decimal_to_american_trunc_witness :
    (1 : ℚ) < 3/2 ∧ (3/2 : ℚ) < 2 ∧ PCalc.decimal_to_american (3/2) = some (-200) := by
  refine ⟨by norm_num, by norm_num, ?_⟩
  have h := (decimal_to_american_trunc (3/2)).2.1 (by norm_num) (by norm_num)
  have h2 : (-100 : ℚ) / (3/2 - 1) = ((-200 : ℤ) : ℚ) := by norm_num
  rw [h, h2, Int.ceil_intCast]

/-- C2 counterexample: the round trip maps `-100` to `+100` (an error of
200) and maps `50` to `-200` (an error of 250), both outside the claimed
±1 tolerance. -/
theorem roundtrip_claim_false :
    (PCalc.american_to_decimal (-100)).bind PCalc.decimal_to_american = some 100 ∧
    (PCalc.american_to_decimal 50).bind PCalc.decimal_to_american = some (-200) ∧
    ¬|(100 : ℤ) - (-100)| ≤ 1 ∧ ¬|(-200 : ℤ) - 50| ≤ 1 := by
  refine ⟨?_, ?_, by decide, by decide⟩
  · norm_num [PCalc.american_to_decimal, PCalc.decimal_to_american, pyInt,
      Int.floor_eq_iff]
  · norm_num [PCalc.american_to_decimal, PCalc.decimal_to_american, pyInt,
      Int.ceil_eq_iff]

/-- C2 amended: for American odds `o` with `o ≥ 100` or `o < -100` (every
well-formed quote except even money written as `-100`) the round trip
through `american_to_decimal` and `decimal_to_american` returns exactly
`o`; `-100` itself comes back as the equivalent quote `+100`, and
magnitudes below 100 are not recovered at all. -/
theorem american_decimal_roundtrip_exact (o : ℤ) (h : 100 ≤ o ∨ o < -100) :
    (PCalc.american_to_decimal o).bind PCalc.decimal_to_american = some o := by
  rcases h with h | h
  · have h0 : (0 : ℤ) < o := by omega
    unfold PCalc.american_to_decimal
    rw [if_pos h0]
    show PCalc.decimal_to_american ((o : ℚ) / 100 + 1) = some o
    have hq : (100 : ℚ) ≤ (o : ℚ) := by exact_mod_cast h
    have h1 : (1 : ℚ) ≤ (o : ℚ) / 100 := by
      rw [le_div_iff₀ (by norm_num : (0 : ℚ) < 100)]
      linarith
    unfold PCalc.decimal_to_american
    rw [if_pos (by linarith : (2 : ℚ) ≤ (o : ℚ) / 100 + 1)]
    have he : ((o : ℚ) / 100 + 1 - 1) * 100 = (o : ℚ) := by
      field_simp
    rw [he, pyInt_intCast]
  · have h0 : ¬(0 : ℤ) < o := by omega
    have hne : o ≠ 0 := by omega
    unfold PCalc.american_to_decimal
    rw [if_neg h0, if_neg hne]
    show PCalc.decimal_to_american (100 / |(o : ℚ)| + 1) = some o
    have habs : (100 : ℚ) < |(o : ℚ)| := by
      have hio : (100 : ℤ) < |o| := by
        rw [abs_of_neg (by omega : o < 0)]
        omega
      rw [← Int.cast_abs]
      exact_mod_cast hio
    have hpos : (0 : ℚ) < |(o : ℚ)| := by linarith
    have hlt : 100 / |(o : ℚ)| < 1 := (div_lt_one hpos).mpr habs
    have hgt : (0 : ℚ) < 100 / |(o : ℚ)| := div_pos (by norm_num) hpos
    unfold PCalc.decimal_to_american
    rw [if_neg (by linarith : ¬(2 : ℚ) ≤ 100 / |(o : ℚ)| + 1),
      if_neg (by intro hh; apply ne_of_gt hgt; linarith)]
    congr 1
    have he : -100 / (100 / |(o : ℚ)| + 1 - 1) = (o : ℚ) := by
      rw [add_sub_cancel_right]
      have ha : |(o : ℚ)| = -(o : ℚ) :=
        abs_of_neg (by exact_mod_cast (by omega : o < 0) : (o : ℚ) < 0)
      rw [div_div_eq_mul_div]
      rw [ha]
      ring
    rw [he, pyInt_intCast]

/-- C2 witness: the amended round trip is exact at `+150` and `-110`. -/
theorem american_decimal_roundtrip_exact_witness :
    ((100 : ℤ) ≤ 150 ∨ (150 : ℤ) < -100) ∧
    (PCalc.american_to_decimal 150).bind PCalc.decimal_to_american = some 150 ∧
    ((100 : ℤ) ≤ -110 ∨ (-110 : ℤ) < -100) ∧
    (PCalc.american_to_decimal (-110)).bind PCalc.decimal_to_american = some (-110) :=
  ⟨Or.inl (by norm_num),
    american_decimal_roundtrip_exact 150 (Or.inl (by norm_num)),
    Or.inr (by norm_num),
    american_decimal_roundtrip_exact (-110) (Or.inr (by norm_num))⟩

/-- C3: after `calculate_prediction`, the confidence is exactly `0.5` when
the score total is zero, otherwise the `0.8`-rescaled winning proportion
clamped to `[0.5, 0.95]`; in every case it lies in `[0.5, 0.95]`. -/
theorem calculate_prediction_confidence_spec (a : Analysis.FactorAnalysis) :
    (a.home_score + a.away_score = 0 →
      a.calculate_prediction.confidence = 1/2) ∧
    (a.home_score + a.away_score ≠ 0 →
      a.calculate_prediction.confidence =
        min (max (1/2 + (max a.home_score a.away_score /
          (a.home_score + a.away_score) - 1/2) * 0.8) (1/2)) 0.95) ∧
    1/2 ≤ a.calculate_prediction.confidence ∧
    a.calculate_prediction.confidence ≤ 0.95 := by
  by_cases h : a.home_score + a.away_score = 0
  · refine ⟨fun _ => ?_, fun h' => absurd h h', ?_, ?_⟩ <;>
      simp [Analysis.FactorAnalysis.calculate_prediction, h] <;> norm_num
  · have hc : a.calculate_prediction.confidence =
        min (max (1/2 + (max a.home_score a.away_score /
          (a.home_score + a.away_score) - 1/2) * 0.8) (1/2)) 0.95 := by
      simp [Analysis.FactorAnalysis.calculate_prediction, h]
    refine ⟨fun h' => absurd h' h, fun _ => hc, ?_, ?_⟩
    · rw [hc]
      exact le_min (le_max_right _ _) (by norm_num)
    · rw [hc]
      exact min_le_right _ _

/-- C3 witness: with home score 3 and away score 1 the confidence is
`0.5 + (0.75 - 0.5) * 0.8 = 0.7`, inside `[0.5, 0.95]`. -/
theorem calculate_prediction_confidence_spec_witness :
    (Analysis.FactorAnalysis.mk "m" [] 3 1 none (1/2)).calculate_prediction.confidence =
      min (max (1/2 + (max (3 : ℚ) 1 / ((3 : ℚ) + 1) - 1/2) * 0.8) (1/2)) 0.95 :=
  (calculate_prediction_confidence_spec
    (Analysis.FactorAnalysis.mk "m" [] 3 1 none (1/2))).2.1 (by norm_num)

/-- C4 counterexample: an empty parlay at stake 10 has combined decimal
odds `1.0` and potential payout `10.0`, not the zeros the claim states. -/
theorem empty_parlay_aggregates_claim_false :
    ({ legs := [], stake := 10, sport := "mixed" } : Models.Parlay).total_odds = some 1 ∧
    ({ legs := [], stake := 10, sport := "mixed" } : Models.Parlay).potential_payout =
      some 10 ∧
    ¬(1 : ℚ) = 0 ∧ ¬(10 : ℚ) = 0 := by
  refine ⟨rfl, ?_, by norm_num, by norm_num⟩
  norm_num [Models.Parlay.potential_payout, Models.Parlay.total_odds]

/-- C4 amended: for a parlay with an empty leg list, the combined decimal
odds are `1.0` (the empty product), the potential payout equals the stake,
the potential profit is `0`, the implied win probability is `0.0`, and the
American odds are `0`; none of these raise. -/
theorem empty_parlay_aggregates (p : Models.Parlay) (h : p.legs = []) :
    p.total_odds = some 1 ∧ p.potential_payout = some p.stake ∧
    p.potential_profit = some 0 ∧ p.implied_win_probability = 0 ∧
    p.get_american_odds = some 0 := by
  have ht : p.total_odds = some 1 := by
    unfold Models.Parlay.total_odds
    rw [if_pos h]
  have hp : p.potential_payout = some p.stake := by
    unfold Models.Parlay.potential_payout
    rw [ht, Option.map_some']
    rw [mul_one]
  refine ⟨ht, hp, ?_, ?_, ?_⟩
  · unfold Models.Parlay.potential_profit
    rw [hp, Option.map_some']
    rw [sub_self]
  · unfold Models.Parlay.implied_win_probability
    rw [if_pos h]
  · unfold Models.Parlay.get_american_odds
    rw [ht, Option.map_some']
    norm_num

/-- C4 witness: the amended statement evaluated on the concrete empty
parlay at stake 10. -/
theorem empty_parlay_aggregates_witness :
    ({ legs := [], stake := 10, sport := "mixed" } : Models.Parlay).total_odds = some 1 ∧
    ({ legs := [], stake := 10, sport := "mixed" } : Models.Parlay).potential_payout =
      some 10 ∧
    ({ legs := [], stake := 10, sport := "mixed" } : Models.Parlay).potential_profit =
      some 0 ∧
    ({ legs := [], stake := 10, sport := "mixed" } : Models.Parlay).implied_win_probability =
      0 ∧
    ({ legs := [], stake := 10, sport := "mixed" } : Models.Parlay).get_american_odds =
      some 0 :=
  empty_parlay_aggregates { legs := [], stake := 10, sport := "mixed" } rfl

/-- Concrete sample data for witnesses: a home team on a strong record. -/
def sampleHome : Models.Team :=
  { id := "h", name := "H", abbreviation := "H", city := "HC", sport := "NFL",
    stats := { wins := 8, losses := 2 } }

/-- Concrete sample data for witnesses: an away team on a weak record. -/
def sampleAway : Models.Team :=
  { id := "a", name := "A", abbreviation := "A", city := "AC", sport := "NFL",
    stats := { wins := 3, losses := 7 } }

/-- Concrete sample matchup for witnesses. -/
def sampleMatchup : Models.Matchup :=
  { id := "m", sport := "NFL", home_team := sampleHome, away_team := sampleAway,
    venue := "V" }

/-- Concrete sample matchup whose market spread marks a large home
favorite. -/
def sampleMatchupSpread : Models.Matchup :=
  { sampleMatchup with odds := { spread := -10 } }

/-- C7: `predict_spread` sets the leg's confidence score to the analysis
confidence times `0.9` exactly when the chosen side is already a large
favorite per the market spread (home chosen and spread `< -7`, or away
chosen and spread `> 7`), and to the unmodified analysis confidence
otherwise. -/
theorem predict_spread_confidence_dampener (p : Predictor.ParlayPredictor)
    (m : Models.Matchup) (a : Analysis.FactorAnalysis) :
    (p.predict_spread m a).confidence_score =
      if (0 < a.home_score - a.away_score ∧ m.odds.spread < -7) ∨
         (¬0 < a.home_score - a.away_score ∧ 7 < m.odds.spread)
      then a.confidence * 0.9 else a.confidence := by
  unfold Predictor.ParlayPredictor.predict_spread
  by_cases h1 : a.away_score < a.home_score ∧ m.odds.spread < -7
  · simp [h1, sub_pos]
  · by_cases h2 : a.home_score ≤ a.away_score ∧ 7 < m.odds.spread
    · simp [h1, h2, sub_pos, not_lt]
    · simp [h1, h2, sub_pos, not_lt]

/-- C7 witness: with scores 3 vs 1 and market spread `-10` the home side
is chosen against a large home-favorite line, so the confidence `0.7` is
dampened to `0.63`. -/
theorem predict_spread_confidence_dampener_witness :
    (Predictor.ParlayPredictor.predict_spread ⟨⟨Analysis.DEFAULT_WEIGHTS⟩⟩
        sampleMatchupSpread
        (Analysis.FactorAnalysis.mk "m" [] 3 1 none (7/10))).confidence_score =
      (7/10 : ℚ) * 0.9 := by
  rw [predict_spread_confidence_dampener]
  rw [if_pos]
  refine Or.inl ⟨by norm_num, ?_⟩
  norm_num [sampleMatchupSpread, sampleMatchup]

/-- C8: `get_key_factors` returns at most `top_n` factors, sorted by
descending absolute weighted value; for every key value, the returned
factors carrying it are an initial run, in order, of the input factors
carrying it (stability: ties are broken by original evaluation order). -/
theorem get_key_factors_sound (az : Analysis.FactorAnalyzer)
    (a : Analysis.FactorAnalysis) (top_n : ℕ) :
    (az.get_key_factors a top_n).length ≤ top_n ∧
    (az.get_key_factors a top_n).Pairwise
      (fun f g => |Analysis.Factor.weighted_value g| ≤
        |Analysis.Factor.weighted_value f|) ∧
    ∀ k : ℚ, ∃ t,
      a.factors.filter (fun f => decide (|Analysis.Factor.weighted_value f| = k)) =
        (az.get_key_factors a top_n).filter
          (fun f => decide (|Analysis.Factor.weighted_value f| = k)) ++ t := by
  unfold Analysis.FactorAnalyzer.get_key_factors
  refine ⟨List.length_take_le _ _, ?_, ?_⟩
  · exact List.Pairwise.sublist (List.take_sublist _ _) (pairwise_sortDescBy _ _)
  · intro k
    obtain ⟨t, ht⟩ := filter_take_suffix
      (fun f => decide (|Analysis.Factor.weighted_value f| = k)) top_n
      (sortDescBy (fun f => |f.weighted_value|) a.factors)
    refine ⟨t, ?_⟩
    rw [← filter_sortDescBy (fun f => |Analysis.Factor.weighted_value f|) k a.factors]
    exact ht

/-- C8 witness: on a two-factor analysis the top-1 key-factor list has at
most one element. -/
theorem get_key_factors_sound_witness :
    ((Analysis.FactorAnalyzer.mk Analysis.DEFAULT_WEIGHTS).get_key_factors
      (Analysis.FactorAnalysis.mk "m" [⟨"f1", 1, 1/10, ""⟩, ⟨"f2", 2, 1/10, ""⟩]
        0 0 none (1/2)) 1).length ≤ 1 :=
  (get_key_factors_sound _ _ 1).1

/-- C6: `generate_parlay` returns at most `num_legs` legs, and every
returned leg is the chosen best bet of some input matchup whose factor
analysis confidence is at least `min_confidence`. -/
theorem generate_parlay_legs_sound (p : Predictor.ParlayPredictor)
    (matchups : List Models.Matchup) (num_legs : ℕ)
    (bet_types : Option (List Models.BetType)) (min_confidence stake : ℚ) :
    (p.generate_parlay matchups num_legs bet_types min_confidence stake).legs.length ≤
      num_legs ∧
    ∀ leg ∈ (p.generate_parlay matchups num_legs bet_types min_confidence stake).legs,
      ∃ m ∈ matchups,
        min_confidence ≤ (p.factor_analyzer.analyze m).confidence ∧
        p.choose_best_bet m (p.factor_analyzer.analyze m)
          (bet_types.getD [Models.BetType.spread, Models.BetType.moneyline]) =
            some leg := by
  unfold Predictor.ParlayPredictor.generate_parlay
  constructor
  · exact le_trans (List.length_filterMap_le _ _) (List.length_take_le _ _)
  · intro leg hleg
    rw [List.mem_filterMap] at hleg
    obtain ⟨pr, hpr, hchoose⟩ := hleg
    have hmem := List.take_subset _ _ hpr
    rw [mem_sortDescBy] at hmem
    rw [List.mem_filterMap] at hmem
    obtain ⟨m, hm, hf⟩ := hmem
    dsimp only at hf
    by_cases hc : min_confidence ≤ (p.factor_analyzer.analyze m).confidence
    · rw [if_pos hc] at hf
      cases hf
      exact ⟨m, hm, hc, hchoose⟩
    · rw [if_neg hc] at hf
      cases hf

/-- C6 witness: on a single concrete matchup with default parameters the
generated parlay has at most 3 legs. -/
theorem generate_parlay_legs_sound_witness :
    (Predictor.ParlayPredictor.generate_parlay ⟨⟨Analysis.DEFAULT_WEIGHTS⟩⟩
      [sampleMatchup] 3 none (1/2) 10).legs.length ≤ 3 :=
  (generate_parlay_legs_sound ⟨⟨Analysis.DEFAULT_WEIGHTS⟩⟩ [sampleMatchup] 3 none
    (1/2) 10).1

/-- C9 witness: adding a selection with a duplicated `game_id` is refused
and the parlay is unchanged. -/
theorem add_selection_unique_game_ids_witness :
    PCalc.Parlay.add_selection
        ⟨[⟨"g1", "", "A", "h2h", -110, none⟩], 0⟩ ⟨"g1", "", "B", "h2h", 130, none⟩ =
      (false, ⟨[⟨"g1", "", "A", "h2h", -110, none⟩], 0⟩) :=
  (add_selection_unique_game_ids ⟨[⟨"g1", "", "A", "h2h", -110, none⟩], 0⟩
    ⟨"g1", "", "B", "h2h", 130, none⟩).1 ⟨_, List.mem_singleton_self _, rfl⟩
